import Mathlib

/-!
Shallow embedding of the ECG Heartbeat API (`src/server.js`, with the earlier
variant `src/unnamed/part_000` where a claim refers to it).

The service is an Express app over a PostgreSQL pool.  Each handler is
embedded as a total Lean function over an explicit database state `Db`
(the `users` and `ecg_results` tables).  Request-body fields arrive as
`Option`s and are tested by JavaScript truthiness (`!x`), which rejects
both an absent field and the falsy values `0` / `""`.  Fallible effects
(pool.connect and each SQL statement) are driven by explicit Boolean
oracle parameters: `false` means the awaited call threw, sending control
to the handler's `catch` block and then its `finally` block.  Every
handler output records how many connections the execution acquired and
how many it released, mirroring the `let client; try ... finally
{ if (client) client.release(); }` pattern of the source.
-/

namespace EcgApi

/-- Row of the `users` table (`id, username, password, age, gender,
created_at, updated_at`); timestamps are modelled as integers. -/
structure User where
  id : Int
  username : String
  password : String
  age : Int
  gender : String
  created_at : Int
  updated_at : Int
deriving Repr, DecidableEq

/-- Row of the `ecg_results` table (`id, user_id, username, tanggal,
waktu, bpm, status, kondisi`); `tanggal` (date) and `waktu`
(time-of-day) are modelled as integers ordered like the SQL values. -/
structure EcgResult where
  id : Int
  user_id : Int
  username : String
  tanggal : Int
  waktu : Int
  bpm : Int
  status : String
  kondisi : String
deriving Repr, DecidableEq

/-- The durable store: the two tables the handlers touch. -/
structure Db where
  users : List User
  ecg : List EcgResult
deriving Repr, DecidableEq

/-- JavaScript truthiness of an optional string field: `!x` fails the
check when the field is absent or the empty string. -/
def truthyStr : Option String → Bool
  | none => false
  | some s => !(s == "")

/-- JavaScript truthiness of an optional integer field: `!x` fails the
check when the field is absent or the number `0`. -/
def truthyInt : Option Int → Bool
  | none => false
  | some n => !(n == 0)

/-- Uniform handler output: HTTP status, `success` flag, `message`, the
optional payload fields the various endpoints attach, the store state
after the call, and the connection-accounting counters. -/
structure HOut where
  status : Nat
  success : Bool
  message : String
  user : Option User
  result : Option EcgResult
  history : List EcgResult
  count : Nat
  deletedRecordId : Option Int
  deletedCount : Nat
  previousCount : Nat
  db : Db
  acquired : Nat
  released : Nat
deriving Repr, DecidableEq

/-- Output with no payload, no connection activity, and the store
untouched; the individual handlers override the relevant fields. -/
def plainOut (st : Nat) (ok : Bool) (msg : String) (db : Db) (acq rel : Nat) : HOut :=
  { status := st, success := ok, message := msg, user := none, result := none,
    history := [], count := 0, deletedRecordId := none, deletedCount := 0,
    previousCount := 0, db := db, acquired := acq, released := rel }

/-- Attach a `user` payload to a handler output. -/
def withUser (u : Option User) (h : HOut) : HOut := { h with user := u }

/-- Attach a `result` payload to a handler output. -/
def withResult (r : Option EcgResult) (h : HOut) : HOut := { h with result := r }

/-- Attach a `history`/`count` payload to a handler output. -/
def withHistory (rows : List EcgResult) (n : Nat) (h : HOut) : HOut :=
  { h with history := rows, count := n }

/-- Attach a `count` payload to a handler output. -/
def withCount (n : Nat) (h : HOut) : HOut := { h with count := n }

/-- Attach a `deletedRecordId` payload to a handler output. -/
def withDeletedId (i : Option Int) (h : HOut) : HOut := { h with deletedRecordId := i }

/-- Attach `deletedCount`/`previousCount` payloads to a handler output. -/
def withDeleted (dc pc : Nat) (h : HOut) : HOut :=
  { h with deletedCount := dc, previousCount := pc }

/-- `status`/`kondisi` classification of a bpm value, exactly the
branch at src/server.js lines 513-523. -/
def classify (bpm : Int) : String × String :=
  if bpm < 60 then ("Abnormal", "Bradikardia")
  else if bpm > 100 then ("Abnormal", "Takikardia")
  else ("Normal", "Normal")

/-- The same branch in the earlier variant `src/unnamed/part_000`
lines 354-365, whose condition labels are full Indonesian phrases. -/
def classifyV0 (bpm : Int) : String × String :=
  if bpm < 60 then ("Abnormal", "Bradikardia - detak jantung rendah (<60 BPM)")
  else if bpm > 100 then ("Abnormal", "Takikardia - detak jantung tinggi (>100 BPM)")
  else ("Normal", "Detak jantung dalam rentang normal (60-100 BPM)")

/-- Pool construction at startup (src/server.js lines 18-50): with no
`DATABASE_URL` the `if` is skipped, `pool` stays undefined and the
status stays `not configured`; with a URL, `new Pool` either succeeds
(`configured`) or throws inside the try, leaving `pool` unset and the
status `error`.  Total: no branch aborts the process. -/
def startupPool (databaseUrl : Option String) (ctorOk : Bool) : Bool × String :=
  match databaseUrl with
  | some _ => if ctorOk then (true, "configured") else (false, "error")
  | none => (false, "not configured")

/-- Body of `POST /api/auth/register`. -/
structure RegisterBody where
  username : Option String
  password : Option String
  age : Option Int
  gender : Option String
deriving Repr, DecidableEq

/-- The register handler's required-field truthiness check
(src/server.js line 141): `!username || !password || !age || !gender`. -/
def registerValid (b : RegisterBody) : Bool :=
  truthyStr b.username && truthyStr b.password && truthyInt b.age && truthyStr b.gender

/-- `POST /api/auth/register` (src/server.js lines 126-187).
`connectOk`, `q1Ok`, `q2Ok` say whether `pool.connect()`, the
existence SELECT and the INSERT complete without throwing; `newId` is
the id the store generates, `now` the insert timestamp. -/
def register (pool : Bool) (connectOk q1Ok q2Ok : Bool) (body : RegisterBody)
    (db : Db) (newId now : Int) : HOut :=
  if !pool then plainOut 500 false "Database not configured" db 0 0
  else if !registerValid body then
    plainOut 400 false "All fields are required" db 0 0
  else if !connectOk then
    plainOut 500 false "Server error during registration" db 0 0
  else if !q1Ok then
    plainOut 500 false "Server error during registration" db 1 1
  else if db.users.any (fun u => some u.username == body.username) then
    plainOut 400 false "Username sudah digunakan" db 1 1
  else if !q2Ok then
    plainOut 500 false "Server error during registration" db 1 1
  else
    let u : User :=
      { id := newId, username := body.username.getD "", password := body.password.getD "",
        age := body.age.getD 0, gender := body.gender.getD "",
        created_at := now, updated_at := now }
    withUser (some u)
      (plainOut 201 true "User berhasil didaftarkan" { db with users := db.users ++ [u] } 1 1)

/-- Body of `POST /api/auth/login`. -/
structure LoginBody where
  username : Option String
  password : Option String
deriving Repr, DecidableEq

/-- The login handler's required-field check (src/server.js line 204). -/
def loginValid (b : LoginBody) : Bool :=
  truthyStr b.username && truthyStr b.password

/-- `POST /api/auth/login` (src/server.js lines 190-253).  The user
lookup is `SELECT * FROM users WHERE username = $1 AND password = $2`;
zero rows yield 401.  The issued token (`token_<id>_<Date.now()>`) is
an opaque string not needed by any claim and is not carried in `HOut`. -/
def login (pool : Bool) (connectOk q1Ok : Bool) (body : LoginBody) (db : Db) : HOut :=
  if !pool then plainOut 500 false "Database not configured" db 0 0
  else if !loginValid body then
    plainOut 400 false "Username and password are required" db 0 0
  else if !connectOk then
    plainOut 500 false "Server error during login" db 0 0
  else if !q1Ok then
    plainOut 500 false "Server error during login" db 1 1
  else
    match db.users.filter
        (fun u => some u.username == body.username && some u.password == body.password) with
    | [] => plainOut 401 false "Username atau password salah" db 1 1
    | u :: _ => withUser (some u) (plainOut 200 true "Login berhasil" db 1 1)

/-- Descending `created_at` comparator for
`SELECT ... FROM users ORDER BY created_at DESC`. -/
def userCreatedDesc (a b : User) : Bool := b.created_at ≤ a.created_at

/-- `GET /api/users/all` (src/server.js lines 260-299); the user list
payload is reported through `count` (the claims touching this route
only concern its not-configured and resource behaviour). -/
def usersAll (pool : Bool) (connectOk q1Ok : Bool) (db : Db) : HOut :=
  if !pool then plainOut 500 false "Database not configured" db 0 0
  else if !connectOk then
    plainOut 500 false "Server error while fetching users" db 0 0
  else if !q1Ok then
    plainOut 500 false "Server error while fetching users" db 1 1
  else
    withCount (db.users.mergeSort userCreatedDesc).length
      (plainOut 200 true "Users retrieved successfully" db 1 1)

/-- `GET /api/profile/:userId` (src/server.js lines 306-352). -/
def profileGet (pool : Bool) (connectOk q1Ok : Bool) (userId : Int) (db : Db) : HOut :=
  if !pool then plainOut 500 false "Database not configured" db 0 0
  else if !connectOk then
    plainOut 500 false "Server error while fetching profile" db 0 0
  else if !q1Ok then
    plainOut 500 false "Server error while fetching profile" db 1 1
  else
    match db.users.filter (fun u => u.id == userId) with
    | [] => plainOut 404 false "User not found" db 1 1
    | u :: _ => withUser (some u) (plainOut 200 true "Profile retrieved successfully" db 1 1)

/-- Body of `PUT /api/profile/update`. -/
structure UpdateBody where
  userId : Option Int
  username : Option String
  age : Option Int
  gender : Option String
  oldPassword : Option String
  newPassword : Option String
deriving Repr, DecidableEq

/-- The update handler's required-field check (src/server.js line 377):
`!userId || !username || !age || !gender`. -/
def updateValid (b : UpdateBody) : Bool :=
  truthyInt b.userId && truthyStr b.username && truthyInt b.age && truthyStr b.gender

/-- The row an `UPDATE users SET ...` statement produces from `u`:
`withPw` selects the variant that also replaces the password
(src/server.js lines 428-446). -/
def applyUpdate (b : UpdateBody) (now : Int) (withPw : Bool) (u : User) : User :=
  { u with
      username := b.username.getD "",
      age := b.age.getD 0,
      gender := b.gender.getD "",
      updated_at := now,
      password := if withPw then b.newPassword.getD "" else u.password }

/-- `PUT /api/profile/update` (src/server.js lines 355-484).  Oracle
flags: `q1Ok` user-existence SELECT, `q2Ok` username-uniqueness SELECT,
`q3Ok` the UPDATE.  The password branch runs only when both
`oldPassword` and `newPassword` are truthy. -/
def profileUpdate (pool : Bool) (connectOk q1Ok q2Ok q3Ok : Bool) (body : UpdateBody)
    (db : Db) (now : Int) : HOut :=
  if !pool then plainOut 500 false "Database not configured" db 0 0
  else if !updateValid body then
    plainOut 400 false "User ID, username, age, and gender are required" db 0 0
  else if !connectOk then
    plainOut 500 false "Server error while updating profile" db 0 0
  else if !q1Ok then
    plainOut 500 false "Server error while updating profile" db 1 1
  else
    match db.users.filter (fun u => some u.id == body.userId) with
    | [] => plainOut 404 false "User not found" db 1 1
    | currentUser :: _ =>
      if truthyStr body.oldPassword && truthyStr body.newPassword
          && !(some currentUser.password == body.oldPassword) then
        plainOut 400 false "Old password is incorrect" db 1 1
      else if !q2Ok then
        plainOut 500 false "Server error while updating profile" db 1 1
      else if db.users.any
          (fun u => some u.username == body.username && !(some u.id == body.userId)) then
        plainOut 400 false "Username already exists" db 1 1
      else if !q3Ok then
        plainOut 500 false "Server error while updating profile" db 1 1
      else
        let withPw := truthyStr body.oldPassword && truthyStr body.newPassword
        let users := db.users.map
          (fun u => if some u.id == body.userId then applyUpdate body now withPw u else u)
        match users.filter (fun u => some u.id == body.userId) with
        | [] => plainOut 404 false "Failed to update user profile" { db with users := users } 1 1
        | u :: _ =>
          withUser (some u)
            (plainOut 200 true "Profile updated successfully" { db with users := users } 1 1)

/-- Body of `POST /api/ecg/save`. -/
structure SaveBody where
  userId : Option Int
  username : Option String
  bpm : Option Int
deriving Repr, DecidableEq

/-- The save handler's required-field truthiness check
(src/server.js line 505): `!userId || !username || !bpm`. -/
def saveValid (b : SaveBody) : Bool :=
  truthyInt b.userId && truthyStr b.username && truthyInt b.bpm

/-- `POST /api/ecg/save` (src/server.js lines 491-555): validate,
classify the bpm, connect, INSERT the row with server-stamped
`tanggal`/`waktu` (parameters `today`/`timeOfDay`) and store-generated
`newId`. -/
def ecgSave (pool : Bool) (connectOk q1Ok : Bool) (body : SaveBody) (db : Db)
    (today timeOfDay newId : Int) : HOut :=
  if !pool then plainOut 500 false "Database not configured" db 0 0
  else if !saveValid body then
    plainOut 400 false "User ID, username, and BPM are required" db 0 0
  else
    let sc := classify (body.bpm.getD 0)
    if !connectOk then
      plainOut 500 false "Server error while saving ECG result" db 0 0
    else if !q1Ok then
      plainOut 500 false "Server error while saving ECG result" db 1 1
    else
      let row : EcgResult :=
        { id := newId, user_id := body.userId.getD 0, username := body.username.getD "",
          tanggal := today, waktu := timeOfDay, bpm := body.bpm.getD 0,
          status := sc.1, kondisi := sc.2 }
      withResult (some row)
        (plainOut 201 true "ECG result saved successfully" { db with ecg := db.ecg ++ [row] } 1 1)

/-- Comparator realising `ORDER BY tanggal DESC, waktu DESC`
(src/server.js line 577): `a` may precede `b` when `a`'s date is later,
or the dates tie and `a`'s time-of-day is no earlier. -/
def ecgDesc (a b : EcgResult) : Bool :=
  (b.tanggal < a.tanggal) || (a.tanggal == b.tanggal && b.waktu ≤ a.waktu)

/-- `GET /api/ecg/history/:userId` (src/server.js lines 558-602):
`SELECT * FROM ecg_results WHERE user_id = $1 ORDER BY tanggal DESC,
waktu DESC`, answered with the rows and their count. -/
def ecgHistory (pool : Bool) (connectOk q1Ok : Bool) (userId : Int) (db : Db) : HOut :=
  if !pool then plainOut 500 false "Database not configured" db 0 0
  else if !connectOk then
    plainOut 500 false "Server error while fetching ECG history" db 0 0
  else if !q1Ok then
    plainOut 500 false "Server error while fetching ECG history" db 1 1
  else
    let rows := (db.ecg.filter (fun r => r.user_id == userId)).mergeSort ecgDesc
    withHistory rows rows.length
      (plainOut 200 true "ECG history retrieved successfully" db 1 1)

/-- `DELETE /api/ecg/history/:userId` (src/server.js lines 605-671).
The path parameter is a string checked with `!userId || isNaN(userId)`;
it is modelled as `Option Int`, `none` for a non-numeric segment.
Oracle flags: `q1Ok` user SELECT, `q2Ok` COUNT, `q3Ok` DELETE. -/
def ecgDeleteAll (pool : Bool) (connectOk q1Ok q2Ok q3Ok : Bool) (userId : Option Int)
    (db : Db) : HOut :=
  if !pool then plainOut 500 false "Database not configured" db 0 0
  else
    match userId with
    | none => plainOut 400 false "Invalid user ID" db 0 0
    | some uid =>
      if !connectOk then
        plainOut 500 false "Server error while deleting ECG history" db 0 0
      else if !q1Ok then
        plainOut 500 false "Server error while deleting ECG history" db 1 1
      else if (db.users.filter (fun u => u.id == uid)).isEmpty then
        plainOut 404 false "User not found" db 1 1
      else if !q2Ok then
        plainOut 500 false "Server error while deleting ECG history" db 1 1
      else if !q3Ok then
        plainOut 500 false "Server error while deleting ECG history" db 1 1
      else
        let n := (db.ecg.filter (fun r => r.user_id == uid)).length
        withDeleted n n
          (plainOut 200 true "Successfully deleted ECG records"
            { db with ecg := db.ecg.filter (fun r => !(r.user_id == uid)) } 1 1)

/-- `DELETE /api/ecg/history/:userId/:id` (src/server.js lines
674-734): ownership SELECT (`WHERE id = $1 AND user_id = $2`), 404 on
zero rows, otherwise DELETE with the same predicate.  Path parameters
modelled as `Option Int` as in `ecgDeleteAll`. -/
def ecgDeleteOne (pool : Bool) (connectOk q1Ok q2Ok : Bool) (userId recId : Option Int)
    (db : Db) : HOut :=
  if !pool then plainOut 500 false "Database not configured" db 0 0
  else
    match userId, recId with
    | some uid, some rid =>
      if !connectOk then
        plainOut 500 false "Server error while deleting ECG record" db 0 0
      else if !q1Ok then
        plainOut 500 false "Server error while deleting ECG record" db 1 1
      else if (db.ecg.filter (fun r => r.id == rid && r.user_id == uid)).isEmpty then
        plainOut 404 false "ECG record not found or does not belong to user" db 1 1
      else if !q2Ok then
        plainOut 500 false "Server error while deleting ECG record" db 1 1
      else
        withDeletedId (some rid)
          (plainOut 200 true "Successfully deleted ECG record"
            { db with ecg := db.ecg.filter (fun r => !(r.id == rid && r.user_id == uid)) } 1 1)
    | _, _ => plainOut 400 false "Invalid user ID or record ID" db 0 0

/-- `checkDatabaseConnection` (src/server.js lines 53-63): with no pool
it answers false at once; otherwise it acquires a connection and
releases it immediately, or the `connect` throws and nothing was
acquired.  Returns (connected?, acquired, released). -/
def checkDb (pool connectOk : Bool) : Bool × Nat × Nat :=
  if !pool then (false, 0, 0)
  else if !connectOk then (false, 0, 0)
  else (true, 1, 1)

/-- `GET /health` (src/server.js lines 108-119): always replies
`status OK` with the probed database state. -/
def health (pool connectOk : Bool) : String × String :=
  let dbConnected := (checkDb pool connectOk).1
  ("OK", if dbConnected then "connected"
         else if pool then "configured but not connected" else "not configured")

/-- `GET /` (src/server.js lines 70-90): static body carrying the
startup-time database status. -/
def rootRoute (databaseStatus : String) : String × String × String :=
  ("ECG Heartbeat API", "running", databaseStatus)

/-- Sample user row shared by the concrete witnesses below. -/
def alice : User :=
  { id := 1, username := "alice", password := "pw", age := 30, gender := "F",
    created_at := 0, updated_at := 0 }

/-- Sample store with one user and two of her readings (a newer one and
an older one) plus nobody else's. -/
def sampleDb : Db :=
  { users := [alice],
    ecg := [{ id := 8, user_id := 1, username := "alice", tanggal := 10, waktu := 30,
              bpm := 70, status := "Normal", kondisi := "Normal" },
            { id := 9, user_id := 1, username := "alice", tanggal := 11, waktu := 5,
              bpm := 120, status := "Abnormal", kondisi := "Takikardia" }] }

/-- `ecgDesc` is transitive, as `sorted_mergeSort` requires. -/
theorem ecgDesc_trans (a b c : EcgResult) :
    ecgDesc a b → ecgDesc b c → ecgDesc a c := by
  simp only [ecgDesc, Bool.or_eq_true, Bool.and_eq_true, decide_eq_true_eq, beq_iff_eq]
  omega

/-- `ecgDesc` is total, as `sorted_mergeSort` requires. -/
theorem ecgDesc_total (a b : EcgResult) : ecgDesc a b || ecgDesc b a := by
  simp only [Bool.or_eq_true, ecgDesc, Bool.and_eq_true, decide_eq_true_eq, beq_iff_eq]
  omega

/-- C1: the classification is total over integer bpm and
boundary-inclusive: bpm < 60 gives status `Abnormal` via the
bradycardia branch, bpm > 100 gives `Abnormal` via the tachycardia
branch, every bpm in 60..100 gives `Normal`; in particular 59 and 101
classify as Abnormal while the boundaries 60 and 100 classify
as Normal. -/
theorem classify_total_and_boundary (bpm : Int) :
    (bpm < 60 → classify bpm = ("Abnormal", "Bradikardia")) ∧
    (bpm > 100 → classify bpm = ("Abnormal", "Takikardia")) ∧
    (60 ≤ bpm → bpm ≤ 100 → classify bpm = ("Normal", "Normal")) ∧
    (classify 59).1 = "Abnormal" ∧ (classify 101).1 = "Abnormal" ∧
    (classify 60).1 = "Normal" ∧ (classify 100).1 = "Normal" := by
  refine ⟨?_, ?_, ?_, by decide, by decide, by decide, by decide⟩
  · intro h
    simp [classify, h]
  · intro h
    have h' : ¬ bpm < 60 := by omega
    simp [classify, h, h']
  · intro h1 h2
    have h' : ¬ bpm < 60 := by omega
    have h'' : ¬ bpm > 100 := by omega
    simp [classify, h', h'']

/-- Witness for `classify_total_and_boundary` at the concrete inputs
59, 101 and 60. -/
theorem classify_total_and_boundary_witness :
    classify 59 = ("Abnormal", "Bradikardia") ∧
    classify 101 = ("Abnormal", "Takikardia") ∧
    classify 60 = ("Normal", "Normal") :=
  ⟨(classify_total_and_boundary 59).1 (by decide),
   (classify_total_and_boundary 101).2.1 (by decide),
   (classify_total_and_boundary 60).2.2.1 (by decide) (by decide)⟩

/-- C9 counterexample: a save with bpm = 50 stores kondisi
`Bradikardia`, not the English label the claim states; the earlier
variant's label is the long Indonesian phrase, also not the English
one. -/
theorem kondisi_english_label_refuted :
    (ecgSave true true true ⟨some 1, some "alice", some 50⟩ ⟨[], []⟩ 10 20 1).result.map
        (fun r => r.kondisi) = some "Bradikardia" ∧
    ¬ ((ecgSave true true true ⟨some 1, some "alice", some 50⟩ ⟨[], []⟩ 10 20 1).result.map
        (fun r => r.kondisi) = some "Bradycardia — low heart rate (<60 BPM)") ∧
    (classifyV0 50).2 = "Bradikardia - detak jantung rendah (<60 BPM)" ∧
    ¬ ((classifyV0 50).2 = "Bradycardia — low heart rate (<60 BPM)") := by
  refine ⟨rfl, by decide, rfl, by decide⟩

/-- C9 amended: the kondisi stored by a successful save is the second
component of `classify`, which is `Bradikardia` for bpm < 60,
`Takikardia` for bpm > 100 and `Normal` otherwise; in the earlier
variant the labels are the corresponding long Indonesian phrases. -/
theorem kondisi_labels_amended (bpm : Int) (db : Db) (uid : Int) (uname : String)
    (today timeOfDay newId : Int)
    (huid : uid ≠ 0) (hname : uname ≠ "") (hbpm : bpm ≠ 0) :
    (ecgSave true true true ⟨some uid, some uname, some bpm⟩ db today timeOfDay newId).result.map
        (fun r => r.kondisi) = some (classify bpm).2 ∧
    (bpm < 60 → (classify bpm).2 = "Bradikardia" ∧
      (classifyV0 bpm).2 = "Bradikardia - detak jantung rendah (<60 BPM)") ∧
    (bpm > 100 → (classify bpm).2 = "Takikardia" ∧
      (classifyV0 bpm).2 = "Takikardia - detak jantung tinggi (>100 BPM)") ∧
    (¬ bpm < 60 → ¬ bpm > 100 → (classify bpm).2 = "Normal" ∧
      (classifyV0 bpm).2 = "Detak jantung dalam rentang normal (60-100 BPM)") := by
  refine ⟨?_, ?_, ?_, ?_⟩
  · simp [ecgSave, saveValid, truthyInt, truthyStr, huid, hname, hbpm, plainOut, withResult]
  · intro h
    simp [classify, classifyV0, h]
  · intro h
    have h' : ¬ bpm < 60 := by omega
    simp [classify, classifyV0, h, h']
  · intro h' h''
    simp [classify, classifyV0, h', h'']

/-- Witness for `kondisi_labels_amended` at bpm = 50 for user 1. -/
theorem kondisi_labels_amended_witness :
    (ecgSave true true true ⟨some 1, some "alice", some 50⟩ sampleDb 12 7 10).result.map
        (fun r => r.kondisi) = some (classify 50).2 ∧
    (classify 50).2 = "Bradikardia" ∧
    (classifyV0 50).2 = "Bradikardia - detak jantung rendah (<60 BPM)" := by
  have h := kondisi_labels_amended 50 sampleDb 1 "alice" 12 7 10
    (by decide) (by decide) (by decide)
  exact ⟨h.1, (h.2.1 (by decide)).1, (h.2.1 (by decide)).2⟩

/-- Balanced connection accounting: an execution released exactly as
many connections as it acquired, and acquired at most one. -/
def relOk (h : HOut) : Prop := h.released = h.acquired ∧ h.acquired ≤ 1

set_option maxHeartbeats 1000000 in
/-- C2: on every exit path of every handler — success, validation
failure, early not-found/conflict return, or a thrown `connect`/query
error — the number of releases equals the number of acquisitions, and
at most one connection is ever acquired; the health probe balances
likewise. -/
theorem handlers_release_balanced :
    (∀ pool c q1 q2 body db newId now, relOk (register pool c q1 q2 body db newId now)) ∧
    (∀ pool c q1 body db, relOk (login pool c q1 body db)) ∧
    (∀ pool c q1 db, relOk (usersAll pool c q1 db)) ∧
    (∀ pool c q1 uid db, relOk (profileGet pool c q1 uid db)) ∧
    (∀ pool c q1 q2 q3 body db now, relOk (profileUpdate pool c q1 q2 q3 body db now)) ∧
    (∀ pool c q1 body db t w newId, relOk (ecgSave pool c q1 body db t w newId)) ∧
    (∀ pool c q1 uid db, relOk (ecgHistory pool c q1 uid db)) ∧
    (∀ pool c q1 q2 q3 uid db, relOk (ecgDeleteAll pool c q1 q2 q3 uid db)) ∧
    (∀ pool c q1 q2 uid rid db, relOk (ecgDeleteOne pool c q1 q2 uid rid db)) ∧
    (∀ pool c, (checkDb pool c).2.2 = (checkDb pool c).2.1 ∧ (checkDb pool c).2.1 ≤ 1) := by
  refine ⟨?_, ?_, ?_, ?_, ?_, ?_, ?_, ?_, ?_, ?_⟩ <;> intros
  · unfold register
    repeat' split
    all_goals exact ⟨rfl, by first | exact Nat.le_refl 1 | exact Nat.zero_le 1⟩
  · unfold login
    repeat' split
    all_goals exact ⟨rfl, by first | exact Nat.le_refl 1 | exact Nat.zero_le 1⟩
  · unfold usersAll
    repeat' split
    all_goals exact ⟨rfl, by first | exact Nat.le_refl 1 | exact Nat.zero_le 1⟩
  · unfold profileGet
    repeat' split
    all_goals exact ⟨rfl, by first | exact Nat.le_refl 1 | exact Nat.zero_le 1⟩
  · unfold profileUpdate
    dsimp only
    repeat' split
    all_goals exact ⟨rfl, by first | exact Nat.le_refl 1 | exact Nat.zero_le 1⟩
  · unfold ecgSave
    repeat' split
    all_goals exact ⟨rfl, by first | exact Nat.le_refl 1 | exact Nat.zero_le 1⟩
  · unfold ecgHistory
    repeat' split
    all_goals exact ⟨rfl, by first | exact Nat.le_refl 1 | exact Nat.zero_le 1⟩
  · unfold ecgDeleteAll
    repeat' split
    all_goals exact ⟨rfl, by first | exact Nat.le_refl 1 | exact Nat.zero_le 1⟩
  · unfold ecgDeleteOne
    repeat' split
    all_goals exact ⟨rfl, by first | exact Nat.le_refl 1 | exact Nat.zero_le 1⟩
  · unfold checkDb
    repeat' split
    all_goals exact ⟨rfl, by first | exact Nat.le_refl 1 | exact Nat.zero_le 1⟩

/-- C3: with a user of the requested username already stored, a second
register call with truthy fields answers 400 `Username sudah digunakan`
(the conflict emitted as HTTP 400) and leaves the store — in particular
the first user's row — unchanged: the INSERT is never reached. -/
theorem register_duplicate_conflict (db : Db) (body : RegisterBody) (newId now : Int)
    (hv : registerValid body = true)
    (hdup : db.users.any (fun u => some u.username == body.username) = true) :
    (register true true true true body db newId now).status = 400 ∧
    (register true true true true body db newId now).success = false ∧
    (register true true true true body db newId now).message = "Username sudah digunakan" ∧
    (register true true true true body db newId now).db = db := by
  simp [register, hv, hdup, plainOut]

/-- Witness for `register_duplicate_conflict`: re-registering `alice`
against `sampleDb`. -/
theorem register_duplicate_conflict_witness :
    (register true true true true ⟨some "alice", some "pw2", some 22, some "M"⟩
        sampleDb 2 9).status = 400 ∧
    (register true true true true ⟨some "alice", some "pw2", some 22, some "M"⟩
        sampleDb 2 9).db = sampleDb :=
  have h := register_duplicate_conflict sampleDb
    ⟨some "alice", some "pw2", some 22, some "M"⟩ 2 9 (by decide) (by decide)
  ⟨h.1, h.2.2.2⟩

/-- C4: with both fields truthy and no stored row matching username and
password by exact equality, login answers 401
`Username atau password salah` — the same outcome whether the username
exists with another password or does not exist at all — while a falsy
username or password answers 400 instead. -/
theorem login_no_match_unauthorized (db : Db) (body : LoginBody) :
    (loginValid body = true →
      db.users.filter
          (fun u => some u.username == body.username && some u.password == body.password)
        = [] →
      (login true true true body db).status = 401 ∧
      (login true true true body db).success = false ∧
      (login true true true body db).message = "Username atau password salah") ∧
    (loginValid body = false →
      (login true true true body db).status = 400 ∧
      (login true true true body db).message = "Username and password are required") := by
  constructor
  · intro hv hf
    simp [login, hv, hf, plainOut]
  · intro hv
    simp [login, hv, plainOut]

/-- Witness for `login_no_match_unauthorized`: a wrong password for the
existing `alice` gives 401, a missing password gives 400. -/
theorem login_no_match_unauthorized_witness :
    (login true true true ⟨some "alice", some "wrong"⟩ sampleDb).status = 401 ∧
    (login true true true ⟨some "alice", none⟩ sampleDb).status = 400 :=
  ⟨((login_no_match_unauthorized sampleDb ⟨some "alice", some "wrong"⟩).1
      (by decide) (by decide)).1,
   ((login_no_match_unauthorized sampleDb ⟨some "alice", none⟩).2 (by decide)).1⟩

/-- C5: an update request whose required fields are truthy, whose user
exists, and which carries truthy `oldPassword` and `newPassword` with
`oldPassword` different from the stored password, answers 400
`Old password is incorrect` and leaves the whole store — in particular
the stored password and every other field — unchanged: the UPDATE is
never reached. -/
theorem update_wrong_old_password_rejected (db : Db) (body : UpdateBody) (now : Int)
    (u : User) (rest : List User)
    (hv : updateValid body = true)
    (hu : db.users.filter (fun x => some x.id == body.userId) = u :: rest)
    (ho : truthyStr body.oldPassword = true)
    (hn : truthyStr body.newPassword = true)
    (hne : (some u.password == body.oldPassword) = false) :
    (profileUpdate true true true true true body db now).status = 400 ∧
    (profileUpdate true true true true true body db now).success = false ∧
    (profileUpdate true true true true true body db now).message = "Old password is incorrect" ∧
    (profileUpdate true true true true true body db now).db = db := by
  simp [profileUpdate, hv, hu, ho, hn, hne, plainOut]

/-- Witness for `update_wrong_old_password_rejected`: `alice` with a
wrong `oldPassword` against `sampleDb`. -/
theorem update_wrong_old_password_rejected_witness :
    (profileUpdate true true true true true
        ⟨some 1, some "alice", some 30, some "F", some "wrong", some "npw"⟩
        sampleDb 7).status = 400 ∧
    (profileUpdate true true true true true
        ⟨some 1, some "alice", some 30, some "F", some "wrong", some "npw"⟩
        sampleDb 7).db = sampleDb :=
  have h := update_wrong_old_password_rejected sampleDb
    ⟨some 1, some "alice", some 30, some "F", some "wrong", some "npw"⟩ 7 alice []
    (by decide) (by decide) (by decide) (by decide) (by decide)
  ⟨h.1, h.2.2.2⟩

/-- C6: for every user id the history endpoint succeeds with exactly the
rows whose `user_id` matches (a permutation of the table filter),
pairwise ordered by `tanggal` descending with ties broken by `waktu`
descending (the `ecgDesc` comparator, which never consults the primary
key), reporting their number; the sequence is empty exactly when the
user has no readings, and count 0 then follows, not an error. -/
theorem ecg_history_filtered_ordered (db : Db) (uid : Int) :
    (ecgHistory true true true uid db).status = 200 ∧
    (ecgHistory true true true uid db).success = true ∧
    (ecgHistory true true true uid db).history.Perm
      (db.ecg.filter (fun r => r.user_id == uid)) ∧
    (ecgHistory true true true uid db).history.Pairwise (fun a b => ecgDesc a b = true) ∧
    (ecgHistory true true true uid db).count
      = (db.ecg.filter (fun r => r.user_id == uid)).length ∧
    ((ecgHistory true true true uid db).history = []
      ↔ db.ecg.filter (fun r => r.user_id == uid) = []) := by
  have hh : (ecgHistory true true true uid db).history
      = (db.ecg.filter (fun r => r.user_id == uid)).mergeSort ecgDesc := rfl
  refine ⟨rfl, rfl, ?_, ?_, ?_, ?_⟩
  · rw [hh]
    exact List.mergeSort_perm _ _
  · rw [hh]
    exact List.sorted_mergeSort ecgDesc_trans ecgDesc_total _
  · have : (ecgHistory true true true uid db).count
        = ((db.ecg.filter (fun r => r.user_id == uid)).mergeSort ecgDesc).length := rfl
    rw [this, List.length_mergeSort]
  · rw [hh]
    constructor
    · intro h
      have := congrArg List.length h
      rw [List.length_mergeSort] at this
      exact List.eq_nil_of_length_eq_zero this
    · intro h
      rw [h]
      exact List.mergeSort_nil

/-- C7: the single-record delete fails 404 and leaves the store
untouched whenever no row carries both the record id and the owner id
(so a record of another user stays queryable under its owner), and
otherwise removes exactly the rows matching both keys and reports the
deleted id. -/
theorem ecg_delete_one_ownership (db : Db) (uid rid : Int) :
    (db.ecg.filter (fun r => r.id == rid && r.user_id == uid) = [] →
      (ecgDeleteOne true true true true (some uid) (some rid) db).status = 404 ∧
      (ecgDeleteOne true true true true (some uid) (some rid) db).message
        = "ECG record not found or does not belong to user" ∧
      (ecgDeleteOne true true true true (some uid) (some rid) db).db = db) ∧
    (db.ecg.filter (fun r => r.id == rid && r.user_id == uid) ≠ [] →
      (ecgDeleteOne true true true true (some uid) (some rid) db).status = 200 ∧
      (ecgDeleteOne true true true true (some uid) (some rid) db).success = true ∧
      (ecgDeleteOne true true true true (some uid) (some rid) db).db.ecg
        = db.ecg.filter (fun r => !(r.id == rid && r.user_id == uid)) ∧
      (ecgDeleteOne true true true true (some uid) (some rid) db).deletedRecordId
        = some rid) := by
  constructor
  · intro h
    simp [ecgDeleteOne, List.isEmpty_iff, h, plainOut]
  · intro h
    simp [ecgDeleteOne, List.isEmpty_iff, h, plainOut, withDeletedId]

/-- Witness for `ecg_delete_one_ownership`: record 9 of `sampleDb`
belongs to user 1, so deleting it as user 2 is refused with the store
intact, while deleting it as user 1 removes exactly that row. -/
theorem ecg_delete_one_ownership_witness :
    ((ecgDeleteOne true true true true (some 2) (some 9) sampleDb).status = 404 ∧
      (ecgDeleteOne true true true true (some 2) (some 9) sampleDb).db = sampleDb) ∧
    ((ecgDeleteOne true true true true (some 1) (some 9) sampleDb).status = 200 ∧
      (ecgDeleteOne true true true true (some 1) (some 9) sampleDb).deletedRecordId
        = some 9) :=
  have h404 := (ecg_delete_one_ownership sampleDb 2 9).1 (by decide)
  have h200 := (ecg_delete_one_ownership sampleDb 1 9).2 (by decide)
  ⟨⟨h404.1, h404.2.2⟩, ⟨h200.1, h200.2.2.2⟩⟩

/-- C8: with no connection string the startup branch completes with no
pool and status `not configured` (it is a total function: nothing
crashes), every store-dependent endpoint answers the uniform 500
`Database not configured` with the store untouched, and the health and
root liveness routes still answer normally. -/
theorem not_configured_degrades_uniformly :
    startupPool none true = (false, "not configured") ∧
    startupPool none false = (false, "not configured") ∧
    (∀ c q1 q2 body db newId now,
      (register false c q1 q2 body db newId now).status = 500 ∧
      (register false c q1 q2 body db newId now).message = "Database not configured" ∧
      (register false c q1 q2 body db newId now).db = db) ∧
    (∀ c q1 body db,
      (login false c q1 body db).status = 500 ∧
      (login false c q1 body db).message = "Database not configured") ∧
    (∀ c q1 db,
      (usersAll false c q1 db).status = 500 ∧
      (usersAll false c q1 db).message = "Database not configured") ∧
    (∀ c q1 uid db,
      (profileGet false c q1 uid db).status = 500 ∧
      (profileGet false c q1 uid db).message = "Database not configured") ∧
    (∀ c q1 q2 q3 body db now,
      (profileUpdate false c q1 q2 q3 body db now).status = 500 ∧
      (profileUpdate false c q1 q2 q3 body db now).message = "Database not configured") ∧
    (∀ c q1 body db t w newId,
      (ecgSave false c q1 body db t w newId).status = 500 ∧
      (ecgSave false c q1 body db t w newId).message = "Database not configured") ∧
    (∀ c q1 uid db,
      (ecgHistory false c q1 uid db).status = 500 ∧
      (ecgHistory false c q1 uid db).message = "Database not configured") ∧
    (∀ c q1 q2 q3 uid db,
      (ecgDeleteAll false c q1 q2 q3 uid db).status = 500 ∧
      (ecgDeleteAll false c q1 q2 q3 uid db).message = "Database not configured") ∧
    (∀ c q1 q2 uid rid db,
      (ecgDeleteOne false c q1 q2 uid rid db).status = 500 ∧
      (ecgDeleteOne false c q1 q2 uid rid db).message = "Database not configured") ∧
    (∀ c, health false c = ("OK", "not configured")) ∧
    rootRoute "not configured" = ("ECG Heartbeat API", "running", "not configured") := by
  refine ⟨rfl, rfl, ?_, ?_, ?_, ?_, ?_, ?_, ?_, ?_, ?_, ?_, rfl⟩ <;> intros <;>
    first
      | exact ⟨rfl, rfl, rfl⟩
      | exact ⟨rfl, rfl⟩
      | rfl

/-- C10: a save whose `bpm` field carries the integer 0 — and likewise
a register whose `age` field carries 0 — is rejected 400 by the
truthiness check exactly as if the field were absent, before any
connection or insert, for every oracle outcome; so the bradycardia
branch is unreachable through the save endpoint at bpm 0 and no row is
stored. -/
theorem zero_bpm_age_validation (db : Db) (sb : SaveBody) (rb : RegisterBody)
    (c q1 c2 q2 q3 : Bool) (today timeOfDay newId newId2 now2 : Int)
    (hb : sb.bpm = some 0) (ha : rb.age = some 0) :
    (ecgSave true c q1 sb db today timeOfDay newId).status = 400 ∧
    (ecgSave true c q1 sb db today timeOfDay newId).message
      = "User ID, username, and BPM are required" ∧
    (ecgSave true c q1 sb db today timeOfDay newId).db = db ∧
    (ecgSave true c q1 sb db today timeOfDay newId).result = none ∧
    (ecgSave true c q1 sb db today timeOfDay newId).acquired = 0 ∧
    (register true c2 q2 q3 rb db newId2 now2).status = 400 ∧
    (register true c2 q2 q3 rb db newId2 now2).message = "All fields are required" ∧
    (register true c2 q2 q3 rb db newId2 now2).db = db ∧
    (register true c2 q2 q3 rb db newId2 now2).user = none := by
  have hsv : saveValid sb = false := by
    simp [saveValid, truthyInt, hb]
  have hrv : registerValid rb = false := by
    simp [registerValid, truthyInt, ha]
  refine ⟨?_, ?_, ?_, ?_, ?_, ?_, ?_, ?_, ?_⟩ <;>
    simp [ecgSave, register, hsv, hrv, plainOut]

/-- Witness for `zero_bpm_age_validation`: bpm 0 with user and username
present, age 0 with the other three fields present. -/
theorem zero_bpm_age_validation_witness :
    (ecgSave true true true ⟨some 1, some "alice", some 0⟩ sampleDb 12 7 10).status = 400 ∧
    (ecgSave true true true ⟨some 1, some "alice", some 0⟩ sampleDb 12 7 10).db = sampleDb ∧
    (register true true true true ⟨some "bob", some "pw", some 0, some "M"⟩
        sampleDb 2 9).status = 400 :=
  have h := zero_bpm_age_validation sampleDb ⟨some 1, some "alice", some 0⟩
    ⟨some "bob", some "pw", some 0, some "M"⟩ true true true true true 12 7 10 2 9
    (by decide) (by decide)
  ⟨h.1, h.2.2.1, h.2.2.2.2.2.1⟩

end EcgApi
